import Mathlib

/-!
# Verification of the pybiscus federated client round protocol

Shallow embedding of `src/flower/client_fabric.py` (class `FlowerClient`):
the parameter codec (`get_parameters` / `set_parameters`), the two round
operations (`fit` / `evaluate`) and the client construction.

Numeric arrays are modelled exactly (integer-valued entries); the external
collaborators (Training Engine, Execution Backend, Optimizer) are
parameters of the embedding, modelled from their interface in the spec.
-/

namespace Pybiscus

/-- A dense numeric array: a shape together with its (flattened) entries.
Models the numpy arrays / torch tensors carried in a ParameterSet and in the
model's `state_dict`. `val.cpu().numpy()` and `torch.tensor(v)` are
value-preserving conversions, so both directions are the identity here. -/
structure Tensor where
  shape : List Nat
  data : List Int
  deriving Repr, DecidableEq

/-- The model's weight state: `model.state_dict()`, an ordered mapping from
slot names to tensors, in the model's native weight-declaration order. -/
abbrev StateDict := List (String × Tensor)

/-- Python `model.state_dict().keys()` in declaration order. -/
def sdKeys (m : StateDict) : List String := m.map Prod.fst

/-- The slot shapes of a state dict, in declaration order. -/
def sdShapes (m : StateDict) : List (List Nat) := m.map (fun kv => kv.2.shape)

/-- A ParameterSet: the ordered, transport-neutral sequence of numeric
arrays exchanged with the coordinator. -/
abbrev ParameterSet := List Tensor

/-- Errors a round can surface to the caller.
`parameterMismatch` is the `RuntimeError` raised by
`load_state_dict(..., strict=True)` on a key/shape disagreement (the spec's
`ParameterMismatchError`); `keyError k` is the Python `KeyError` raised by
`config[k]` on a missing key (the spec's `ConfigurationError`). -/
inductive ClientError where
  | parameterMismatch : ClientError
  | keyError : String → ClientError
  deriving Repr, DecidableEq

/-- Modelled from the spec: the Model's bulk-replace operation
`model.load_state_dict(state_dict, strict=True)` (the Model collaborator's
interface, spec section 6(b), and the decode contract of section 4.1):
with `strict=True` the supplied mapping must carry exactly the model's
slots with matching shapes; on success every slot is replaced, on any
disagreement it fails and the weight state is left as it was. The body of
`load_state_dict` lives in the external framework, not in this repository's
sources. Returns the resulting weight state and the error, if any. -/
def load_state_dict (model sd : StateDict) : StateDict × Option ClientError :=
  if sdKeys sd = sdKeys model ∧ sdShapes sd = sdShapes model then
    (sd, none)
  else
    (model, some .parameterMismatch)

/-- Embeds `FlowerClient.set_parameters`: zips the model's slot names with the
incoming arrays (Python `zip` stops at the shorter sequence), builds an
ordered state dict from the pairs, and loads it strictly. Returns the
model's weight state after the call and the error, if any. -/
def set_parameters (model : StateDict) (parameters : ParameterSet) :
    StateDict × Option ClientError :=
  let params_dict := (sdKeys model).zip parameters
  let state_dict := params_dict
  load_state_dict model state_dict

/-- The coordinator-supplied round configuration: a key/value mapping.
Both keys the client reads (`server_round`, `local_epochs`) hold integers. -/
abbrev Config := List (String × Nat)

/-- Python `config[k]` as a partial lookup: first binding of `k`, if any. -/
def Config.get? : Config → String → Option Nat
  | [], _ => none
  | (k, v) :: rest, key => if k = key then some v else Config.get? rest key

/-- Embeds `FlowerClient.get_parameters`: reads the model's current weights in
declaration order, one host-resident array per slot; the `config` argument
is only logged. -/
def get_parameters (model : StateDict) (config : Config) : ParameterSet :=
  let _ := config
  model.map Prod.snd

/-- A value of the outgoing metrics mapping: `accuracy` and `loss` are
numbers, `cid` is the client identity. -/
inductive MetricValue where
  | num : ℚ → MetricValue
  | id : Nat → MetricValue
  deriving Repr, DecidableEq

/-- The metrics mapping returned to the coordinator. -/
abbrev Metrics := List (String × MetricValue)

/-- The `num_examples` mapping fixed at construction:
`{"trainset": n, "valset": n}` as reported by the Data Source. -/
structure NumExamples where
  trainset : Nat
  valset : Nat
  deriving Repr, DecidableEq

/-- The client's persistent state. `Opt` is the Optimizer's state type and
`Feed` the data-feed type, both owned by external collaborators. The
`conf_fabric` keyword mapping is opaque at this layer. -/
structure FlowerClient (Opt Feed : Type) where
  cid : Nat
  model : StateDict
  train_dataloader : Feed
  validation_dataloader : Feed
  num_examples : NumExamples
  optimizer : Opt
  deriving Repr, DecidableEq

/-- Modelled from the spec: the Training Engine boundary
(`train_loop` / `test_loop` of `src/flower/loops_fabric.py`, which is not
among the sources): `train` runs the requested number of epochs over the
training feed and returns `(loss, accuracy)` together with the mutated
Model and Optimizer state; `evaluate` runs one evaluation pass over the
validation feed and returns `(loss, accuracy)`. The Execution Backend
(`Fabric.launch` / `setup` / `setup_dataloaders`) is a black box wrapping
these handles; it appears synchronous and the wrapped model shares the
client's weight storage, so it is the identity at this layer. -/
structure Engines (Opt Feed : Type) where
  train_loop : StateDict → Feed → Opt → Nat → ℚ × ℚ × StateDict × Opt
  test_loop : StateDict → Feed → ℚ × ℚ

/-- Embeds `FlowerClient.__init__`: stores the constructor arguments and obtains
the Optimizer from the model's optimizer factory
(`self.model.configure_optimizers()`). -/
def FlowerClient.init {Opt Feed : Type} (cid : Nat) (model : StateDict)
    (train_dataloader validation_dataloader : Feed)
    (num_examples : NumExamples) (configure_optimizers : StateDict → Opt) :
    FlowerClient Opt Feed :=
  { cid := cid
    model := model
    train_dataloader := train_dataloader
    validation_dataloader := validation_dataloader
    num_examples := num_examples
    optimizer := configure_optimizers model }

/-- Embeds `FlowerClient.fit`: decode the incoming parameters into the model,
log `config["server_round"]`, launch and set up the Execution Backend,
train for `config["local_epochs"]` epochs, then return the freshly
re-encoded weights, the training-feed sample count and the metrics map.
A raised exception leaves `self` in whatever state the completed
statements produced, so the post-call client state is returned alongside
the result in every case. -/
def FlowerClient.fit {Opt Feed : Type} (E : Engines Opt Feed)
    (c : FlowerClient Opt Feed) (parameters : ParameterSet) (config : Config) :
    Except ClientError (ParameterSet × Nat × Metrics) × FlowerClient Opt Feed :=
  match set_parameters c.model parameters with
  | (_, some e) => (.error e, c)
  | (m1, none) =>
    let c1 := { c with model := m1 }
    match config.get? "server_round" with
    | none => (.error (.keyError "server_round"), c1)
    | some _ =>
      match config.get? "local_epochs" with
      | none => (.error (.keyError "local_epochs"), c1)
      | some epochs =>
        let r := E.train_loop m1 c.train_dataloader c.optimizer epochs
        let loss := r.1
        let accuracy := r.2.1
        let m2 := r.2.2.1
        let opt2 := r.2.2.2
        let c2 := { c1 with model := m2, optimizer := opt2 }
        let metrics : Metrics :=
          [("accuracy", .num accuracy), ("loss", .num loss), ("cid", .id c.cid)]
        (.ok (get_parameters m2 [], c.num_examples.trainset, metrics), c2)

/-- Embeds `FlowerClient.evaluate`: decode the incoming parameters into the model,
log `config["server_round"]`, launch and set up the Execution Backend,
run one evaluation pass over the validation feed, then return the loss,
the validation-feed sample count and the metrics map. The Optimizer is
never touched and no re-encoding of the weights takes place. -/
def FlowerClient.evaluate {Opt Feed : Type} (E : Engines Opt Feed)
    (c : FlowerClient Opt Feed) (parameters : ParameterSet) (config : Config) :
    Except ClientError (ℚ × Nat × Metrics) × FlowerClient Opt Feed :=
  match set_parameters c.model parameters with
  | (_, some e) => (.error e, c)
  | (m1, none) =>
    let c1 := { c with model := m1 }
    match config.get? "server_round" with
    | none => (.error (.keyError "server_round"), c1)
    | some _ =>
      let r := E.test_loop m1 c.validation_dataloader
      let loss := r.1
      let accuracy := r.2
      let metrics : Metrics :=
        [("accuracy", .num accuracy), ("loss", .num loss), ("cid", .id c.cid)]
      (.ok (loss, c.num_examples.valset, metrics), c1)

/-- One coordinator-driven call on the client, for reasoning about
sequences of rounds. -/
inductive ClientOp where
  | fitOp : ParameterSet → Config → ClientOp
  | evaluateOp : ParameterSet → Config → ClientOp
  | getParametersOp : Config → ClientOp
  deriving Repr, DecidableEq

/-- Runs a sequence of rounds against the client, threading the client's
persistent state; each round's result payload is sent to the coordinator
and only the state carries over (`get_parameters` is read-only). -/
def runOps {Opt Feed : Type} (E : Engines Opt Feed) (c : FlowerClient Opt Feed) :
    List ClientOp → FlowerClient Opt Feed
  | [] => c
  | op :: rest =>
    let c1 := match op with
      | .fitOp p cfg => (c.fit E p cfg).2
      | .evaluateOp p cfg => (c.evaluate E p cfg).2
      | .getParametersOp cfg =>
        let _ := get_parameters c.model cfg
        c
    runOps E c1 rest

/-- A concrete two-slot model, as in the spec's end-to-end scenario. -/
def exModel : StateDict :=
  [("w", ⟨[2], [3, 4]⟩), ("b", ⟨[1], [5]⟩)]

/-- A matching ParameterSet carrying different values than `exModel`. -/
def exParams : ParameterSet :=
  [⟨[2], [10, 20]⟩, ⟨[1], [30]⟩]

/-- The matching ParameterSet with one extra array appended. -/
def exParamsExtra : ParameterSet :=
  [⟨[2], [10, 20]⟩, ⟨[1], [30]⟩, ⟨[1], [99]⟩]

/-- The matching ParameterSet with its last array missing. -/
def exParamsMissing : ParameterSet :=
  [⟨[2], [10, 20]⟩]

/-- A ParameterSet of the right length whose second array has the wrong
shape. -/
def exParamsBadShape : ParameterSet :=
  [⟨[2], [10, 20]⟩, ⟨[3], [30, 31, 32]⟩]

/-- A concrete client over `exModel` with a trivial counter Optimizer. -/
def exClient : FlowerClient Nat Unit :=
  FlowerClient.init 7 exModel () () ⟨12, 5⟩ (fun _ => 0)

/-- A concrete Training Engine: training bumps every weight entry by one
and advances the Optimizer counter by the epoch count. -/
def exEngines : Engines Nat Unit where
  train_loop := fun m _ o e =>
    (1/2, 3/4, m.map (fun kv => (kv.1, ⟨kv.2.shape, kv.2.data.map (· + 1)⟩)), o + e)
  test_loop := fun _ _ => (1/3, 2/3)

/-- A second concrete Training Engine, observably different from
`exEngines` on every input. -/
def exEngines2 : Engines Nat Unit where
  train_loop := fun _ _ _ _ => (9, 9, [], 42)
  test_loop := fun _ _ => (9, 9)

/-- A round config carrying both keys the client reads. -/
def exConfigFull : Config := [("server_round", 1), ("local_epochs", 2)]

/-- A round config lacking `local_epochs`. -/
def exConfigNoEpochs : Config := [("server_round", 1)]

/-- A round config lacking `server_round`. -/
def exConfigNoRound : Config := [("local_epochs", 2)]

/-! ### Auxiliary lemmas on zipping and projections -/

theorem map_fst_zip_take {α β : Type _} (l1 : List α) (l2 : List β) :
    (l1.zip l2).map Prod.fst = l1.take l2.length := by
  induction l1 generalizing l2 with
  | nil => simp
  | cons a l1 ih =>
    cases l2 with
    | nil => simp
    | cons b l2 => simp [ih]

theorem map_snd_zip_take {α β : Type _} (l1 : List α) (l2 : List β) :
    (l1.zip l2).map Prod.snd = l2.take l1.length := by
  induction l1 generalizing l2 with
  | nil => simp
  | cons a l1 ih =>
    cases l2 with
    | nil => simp
    | cons b l2 => simp [ih]

theorem zip_keys_vals (m : StateDict) : (sdKeys m).zip (m.map Prod.snd) = m := by
  induction m with
  | nil => rfl
  | cons kv rest ih => simp [sdKeys] at ih ⊢; exact ih

theorem sdKeys_length (m : StateDict) : (sdKeys m).length = m.length := by
  simp [sdKeys]

theorem sdKeys_zip (m : StateDict) (p : ParameterSet) :
    sdKeys ((sdKeys m).zip p) = (sdKeys m).take p.length :=
  map_fst_zip_take (sdKeys m) p

theorem sdShapes_zip (m : StateDict) (p : ParameterSet) :
    sdShapes ((sdKeys m).zip p) = (p.take m.length).map Tensor.shape := by
  have h1 : sdShapes ((sdKeys m).zip p)
      = (((sdKeys m).zip p).map Prod.snd).map Tensor.shape := by
    simp [sdShapes]
  rw [h1, map_snd_zip_take, sdKeys_length]

/-! ### Claim theorems -/

/-- C3: decoding the result of encoding the same model leaves the model's
weights observably unchanged: `set_parameters` applied to the output of
`get_parameters` on the same model succeeds without error and the weight
state (slot count, shapes and values) is exactly what it was. -/
theorem set_get_roundtrip (m : StateDict) (config : Config) :
    set_parameters m (get_parameters m config) = (m, none) := by
  simp [set_parameters, get_parameters, load_state_dict, zip_keys_vals]

/-- C9: encoding is deterministic in slot ordering: `get_parameters` on a
given model returns the same sequence of slots on any two calls, whatever
config argument each call is passed (the config is only logged). -/
theorem get_parameters_deterministic (m : StateDict) (c1 c2 : Config) :
    get_parameters m c1 = get_parameters m c2 := rfl

/-- C1 (counterexample): the claim that a ParameterSet disagreeing with the
model in exactly one way always raises and leaves the weights unchanged is
false for the extra-array case: on a one-extra-array ParameterSet,
`set_parameters` reports no error and the model's weights are replaced
(Python `zip` silently drops the extra array). -/
theorem set_parameters_extra_accepted :
    (set_parameters exModel exParamsExtra).2 = none ∧
    (set_parameters exModel exParamsExtra).1 ≠ exModel := by
  decide

/-- C1 (amended): decoding a ParameterSet with one missing array, or with
the right number of arrays but one of the wrong shape, raises
`ParameterMismatchError` and leaves every model weight tensor unchanged;
but a ParameterSet with one extra array whose leading arrays match is not
rejected: the extra array is silently dropped and the model's weights are
replaced without error. -/
theorem set_parameters_mismatch (m : StateDict) (p : ParameterSet) :
    (p.length < m.length → set_parameters m p = (m, some .parameterMismatch)) ∧
    (p.length = m.length → p.map Tensor.shape ≠ sdShapes m →
      set_parameters m p = (m, some .parameterMismatch)) ∧
    (m.length ≤ p.length → (p.take m.length).map Tensor.shape = sdShapes m →
      set_parameters m p = ((sdKeys m).zip p, none)) := by
  refine ⟨?_, ?_, ?_⟩
  · intro hp
    have hk : sdKeys ((sdKeys m).zip p) ≠ sdKeys m := by
      intro h
      have hlen := congrArg List.length h
      rw [sdKeys_zip] at hlen
      simp [List.length_take, sdKeys_length] at hlen
      omega
    simp [set_parameters, load_state_dict, hk]
  · intro hlen hsh
    have hs : sdShapes ((sdKeys m).zip p) ≠ sdShapes m := by
      rw [sdShapes_zip, ← hlen, List.take_length]
      exact hsh
    simp [set_parameters, load_state_dict, hs]
  · intro hge hsh
    have hk : sdKeys ((sdKeys m).zip p) = sdKeys m := by
      rw [sdKeys_zip]
      exact List.take_of_length_le (by rw [sdKeys_length]; exact hge)
    have hs : sdShapes ((sdKeys m).zip p) = sdShapes m := by
      rw [sdShapes_zip]
      exact hsh
    simp [set_parameters, load_state_dict, hk, hs]

/-- C1 (witness): the amended behavior at concrete inputs — one missing
array rejected with the model untouched, one wrong-shaped array rejected
with the model untouched, one extra array silently accepted. -/
theorem set_parameters_mismatch_witness :
    set_parameters exModel exParamsMissing = (exModel, some .parameterMismatch) ∧
    set_parameters exModel exParamsBadShape = (exModel, some .parameterMismatch) ∧
    set_parameters exModel exParamsExtra = ((sdKeys exModel).zip exParamsExtra, none) :=
  ⟨(set_parameters_mismatch exModel exParamsMissing).1 (by decide),
   (set_parameters_mismatch exModel exParamsBadShape).2.1 (by decide) (by decide),
   (set_parameters_mismatch exModel exParamsExtra).2.2 (by decide) (by decide)⟩

theorem set_parameters_cases (m : StateDict) (p : ParameterSet) :
    set_parameters m p = ((sdKeys m).zip p, none) ∨
    set_parameters m p = (m, some .parameterMismatch) := by
  by_cases h : sdKeys ((sdKeys m).zip p) = sdKeys m ∧
      sdShapes ((sdKeys m).zip p) = sdShapes m
  · left
    simp only [set_parameters, load_state_dict]
    rw [if_pos h]
  · right
    simp only [set_parameters, load_state_dict]
    rw [if_neg h]

/-- C2 (counterexample): a fit round whose config lacks `local_epochs`
fails, yet the model's weights have already been replaced by the incoming
parameters — the round partially commits, contradicting the claim that
validation failures leave the weights unchanged. -/
theorem fit_missing_epochs_mutates :
    ((exClient.fit exEngines exParams exConfigNoEpochs).1
      = .error (.keyError "local_epochs")) ∧
    (exClient.fit exEngines exParams exConfigNoEpochs).2.model ≠ exClient.model :=
  ⟨rfl, by decide⟩

/-- C2 (amended): decoding failures do abort the round before any
mutation — a mismatched ParameterSet leaves fit and evaluate with the
client state unchanged — but config validation happens only after
decoding: when the incoming parameters decode and a required key is
missing (`local_epochs` or `server_round` for fit, `server_round` for
evaluate), the round fails with the model's weights already replaced by
the incoming parameters, not unchanged. -/
theorem round_validation_order {Opt Feed : Type} (E : Engines Opt Feed)
    (c : FlowerClient Opt Feed) (p : ParameterSet) (cfg : Config) :
    ((set_parameters c.model p).2 ≠ none →
      c.fit E p cfg = (.error .parameterMismatch, c) ∧
      c.evaluate E p cfg = (.error .parameterMismatch, c)) ∧
    (∀ m1, set_parameters c.model p = (m1, none) →
      (cfg.get? "local_epochs" = none →
        ∃ k, c.fit E p cfg = (.error (.keyError k), { c with model := m1 })) ∧
      (cfg.get? "server_round" = none →
        c.evaluate E p cfg = (.error (.keyError "server_round"), { c with model := m1 }))) := by
  constructor
  · intro hne
    rcases set_parameters_cases c.model p with h | h
    · rw [h] at hne
      simp at hne
    · constructor
      · simp [FlowerClient.fit, h]
      · simp [FlowerClient.evaluate, h]
  · intro m1 h
    constructor
    · intro hmiss
      cases hr : cfg.get? "server_round" with
      | none => exact ⟨"server_round", by simp [FlowerClient.fit, h, hr]⟩
      | some r => exact ⟨"local_epochs", by simp [FlowerClient.fit, h, hr, hmiss]⟩
    · intro hmiss
      simp [FlowerClient.evaluate, h, hmiss]

/-- C2 (witness): at a concrete client, matching parameters and a config
missing `local_epochs`, fit fails with a missing-key error and the
post-call model holds the decoded incoming parameters. -/
theorem round_validation_order_witness :
    ∃ k, exClient.fit exEngines exParams exConfigNoEpochs
      = (.error (.keyError k),
         { exClient with model := (sdKeys exModel).zip exParams }) :=
  ((round_validation_order exEngines exClient exParams exConfigNoEpochs).2
    ((sdKeys exModel).zip exParams) (by decide)).1 (by decide)

/-- C10: both fit and evaluate require `server_round` in the config: when
it is absent and the incoming parameters decode, each operation fails with
the missing-key error for that key, and the failure occurs after
`set_parameters` has run — the post-call model already holds the decoded
incoming parameters. -/
theorem server_round_required {Opt Feed : Type} (E : Engines Opt Feed)
    (c : FlowerClient Opt Feed) (p : ParameterSet) (cfg : Config) (m1 : StateDict)
    (hok : set_parameters c.model p = (m1, none))
    (hmiss : cfg.get? "server_round" = none) :
    c.fit E p cfg = (.error (.keyError "server_round"), { c with model := m1 }) ∧
    c.evaluate E p cfg = (.error (.keyError "server_round"), { c with model := m1 }) := by
  constructor
  · simp [FlowerClient.fit, hok, hmiss]
  · simp [FlowerClient.evaluate, hok, hmiss]

/-- C10 (witness): at a concrete client, matching parameters and a config
missing `server_round`, both operations fail with the `server_round`
missing-key error and the model's weights are the decoded parameters. -/
theorem server_round_required_witness :
    exClient.fit exEngines exParams exConfigNoRound
      = (.error (.keyError "server_round"),
         { exClient with model := (sdKeys exModel).zip exParams }) ∧
    exClient.evaluate exEngines exParams exConfigNoRound
      = (.error (.keyError "server_round"),
         { exClient with model := (sdKeys exModel).zip exParams }) :=
  server_round_required exEngines exClient exParams exConfigNoRound _
    (by decide) (by decide)

/-- C4: on a well-formed fit input (decoding parameters, config holding
`server_round` and `local_epochs`), fit returns the freshly re-encoded
ParameterSet of the post-training model weights, the training-feed sample
count fixed at construction, and a metrics map with exactly the keys
`accuracy`, `loss` and `cid`, where `cid` is the identity assigned at
construction. -/
theorem fit_result {Opt Feed : Type} (E : Engines Opt Feed)
    (c : FlowerClient Opt Feed) (p : ParameterSet) (cfg : Config)
    (m1 : StateDict) (r e : Nat)
    (hok : set_parameters c.model p = (m1, none))
    (hr : cfg.get? "server_round" = some r)
    (he : cfg.get? "local_epochs" = some e) :
    (c.fit E p cfg).2.model
      = (E.train_loop m1 c.train_dataloader c.optimizer e).2.2.1 ∧
    (c.fit E p cfg).1 = .ok
      (get_parameters (c.fit E p cfg).2.model [],
       c.num_examples.trainset,
       [("accuracy", .num (E.train_loop m1 c.train_dataloader c.optimizer e).2.1),
        ("loss", .num (E.train_loop m1 c.train_dataloader c.optimizer e).1),
        ("cid", .id c.cid)]) := by
  constructor <;> simp [FlowerClient.fit, hok, hr, he]

/-- C4 (witness): the fit contract at a concrete client, engine,
parameters and config. -/
theorem fit_result_witness :
    (exClient.fit exEngines exParams exConfigFull).2.model
      = (exEngines.train_loop ((sdKeys exModel).zip exParams)
          exClient.train_dataloader exClient.optimizer 2).2.2.1 ∧
    (exClient.fit exEngines exParams exConfigFull).1 = .ok
      (get_parameters (exClient.fit exEngines exParams exConfigFull).2.model [],
       exClient.num_examples.trainset,
       [("accuracy", .num (exEngines.train_loop ((sdKeys exModel).zip exParams)
          exClient.train_dataloader exClient.optimizer 2).2.1),
        ("loss", .num (exEngines.train_loop ((sdKeys exModel).zip exParams)
          exClient.train_dataloader exClient.optimizer 2).1),
        ("cid", .id exClient.cid)]) :=
  fit_result exEngines exClient exParams exConfigFull _ 1 2
    (by decide) (by decide) (by decide)

/-- C5: on a well-formed evaluate input, evaluate returns the Training
Engine's (loss, accuracy) over the validation feed as
`(loss, valset count, {accuracy, loss, cid})`, and performs no parameter
re-encoding: the result carries no ParameterSet and the post-call model is
exactly the decoded broadcast parameters, untouched by evaluation. -/
theorem evaluate_result {Opt Feed : Type} (E : Engines Opt Feed)
    (c : FlowerClient Opt Feed) (p : ParameterSet) (cfg : Config)
    (m1 : StateDict) (r : Nat)
    (hok : set_parameters c.model p = (m1, none))
    (hr : cfg.get? "server_round" = some r) :
    c.evaluate E p cfg =
      (.ok ((E.test_loop m1 c.validation_dataloader).1,
            c.num_examples.valset,
            [("accuracy", .num (E.test_loop m1 c.validation_dataloader).2),
             ("loss", .num (E.test_loop m1 c.validation_dataloader).1),
             ("cid", .id c.cid)]),
       { c with model := m1 }) := by
  simp [FlowerClient.evaluate, hok, hr]

/-- C5 (witness): the evaluate contract at a concrete client, engine,
parameters and config. -/
theorem evaluate_result_witness :
    exClient.evaluate exEngines exParams exConfigFull =
      (.ok ((exEngines.test_loop ((sdKeys exModel).zip exParams)
              exClient.validation_dataloader).1,
            exClient.num_examples.valset,
            [("accuracy", .num (exEngines.test_loop ((sdKeys exModel).zip exParams)
                exClient.validation_dataloader).2),
             ("loss", .num (exEngines.test_loop ((sdKeys exModel).zip exParams)
                exClient.validation_dataloader).1),
             ("cid", .id exClient.cid)]),
       { exClient with model := (sdKeys exModel).zip exParams }) :=
  evaluate_result exEngines exClient exParams exConfigFull _ 1
    (by decide) (by decide)

/-- C6: a fit round whose config lacks `local_epochs` fails with an error
surfaced to the caller, and the Training Engine is never invoked — the
whole call, result and post-state alike, is independent of the engine
supplied, so no defaulted epoch count is ever trained with. -/
theorem fit_requires_local_epochs {Opt Feed : Type} (E E2 : Engines Opt Feed)
    (c : FlowerClient Opt Feed) (p : ParameterSet) (cfg : Config)
    (hmiss : cfg.get? "local_epochs" = none) :
    (∃ err, (c.fit E p cfg).1 = .error err) ∧
    c.fit E p cfg = c.fit E2 p cfg := by
  rcases set_parameters_cases c.model p with h | h
  · cases hr : cfg.get? "server_round" with
    | none =>
      exact ⟨⟨.keyError "server_round", by simp [FlowerClient.fit, h, hr]⟩,
        by simp [FlowerClient.fit, h, hr]⟩
    | some r =>
      exact ⟨⟨.keyError "local_epochs", by simp [FlowerClient.fit, h, hr, hmiss]⟩,
        by simp [FlowerClient.fit, h, hr, hmiss]⟩
  · exact ⟨⟨.parameterMismatch, by simp [FlowerClient.fit, h]⟩,
      by simp [FlowerClient.fit, h]⟩

/-- C6 (witness): at a concrete config lacking `local_epochs`, fit errors
and two observably different engines produce identical outcomes. -/
theorem fit_requires_local_epochs_witness :
    (∃ err, (exClient.fit exEngines exParams exConfigNoEpochs).1 = .error err) ∧
    exClient.fit exEngines exParams exConfigNoEpochs
      = exClient.fit exEngines2 exParams exConfigNoEpochs :=
  fit_requires_local_epochs exEngines exEngines2 exClient exParams exConfigNoEpochs
    (by decide)

theorem set_parameters_ok_cond (m m1 : StateDict) (p : ParameterSet)
    (h : set_parameters m p = (m1, none)) :
    m1 = (sdKeys m).zip p ∧ sdKeys m1 = sdKeys m ∧ sdShapes m1 = sdShapes m := by
  by_cases hc : sdKeys ((sdKeys m).zip p) = sdKeys m ∧
      sdShapes ((sdKeys m).zip p) = sdShapes m
  · have heq : set_parameters m p = ((sdKeys m).zip p, none) := by
      simp only [set_parameters, load_state_dict]
      rw [if_pos hc]
    rw [heq] at h
    have hm1 : (sdKeys m).zip p = m1 := congrArg Prod.fst h
    exact ⟨hm1.symm, hm1 ▸ hc.1, hm1 ▸ hc.2⟩
  · have heq : set_parameters m p = (m, some .parameterMismatch) := by
      simp only [set_parameters, load_state_dict]
      rw [if_neg hc]
    rw [heq] at h
    exact absurd (congrArg Prod.snd h) (by simp)

theorem set_parameters_stable (m m1 : StateDict) (p : ParameterSet)
    (h : set_parameters m p = (m1, none)) :
    set_parameters m1 p = (m1, none) := by
  obtain ⟨hm1, hk, hs⟩ := set_parameters_ok_cond m m1 p h
  have hz : (sdKeys m1).zip p = m1 := by rw [hk, ← hm1]
  simp only [set_parameters, load_state_dict]
  rw [hz, if_pos ⟨rfl, rfl⟩]

/-- C7: evaluate never mutates the Optimizer's state — the post-call
Optimizer equals the pre-call one — and a second evaluate call with the
same ParameterSet and config returns exactly the same result (hence the
same (loss, accuracy) pair) and the same client state as the first. -/
theorem evaluate_no_optimizer_mutation {Opt Feed : Type} (E : Engines Opt Feed)
    (c : FlowerClient Opt Feed) (p : ParameterSet) (cfg : Config) :
    (c.evaluate E p cfg).2.optimizer = c.optimizer ∧
    ((c.evaluate E p cfg).2.evaluate E p cfg) = c.evaluate E p cfg := by
  obtain ⟨cid, mdl, td, vd, ne, opt⟩ := c
  rcases set_parameters_cases mdl p with h | h
  · have h2 := set_parameters_stable mdl _ p h
    cases hr : cfg.get? "server_round" with
    | none => constructor <;> simp [FlowerClient.evaluate, h, h2, hr]
    | some r => constructor <;> simp [FlowerClient.evaluate, h, h2, hr]
  · constructor <;> simp [FlowerClient.evaluate, h]

theorem fit_num_examples {Opt Feed : Type} (E : Engines Opt Feed)
    (c : FlowerClient Opt Feed) (p : ParameterSet) (cfg : Config) :
    (c.fit E p cfg).2.num_examples = c.num_examples := by
  obtain ⟨cid, mdl, td, vd, ne, opt⟩ := c
  rcases set_parameters_cases mdl p with h | h
  · cases hr : cfg.get? "server_round" with
    | none => simp [FlowerClient.fit, h, hr]
    | some r =>
      cases he : cfg.get? "local_epochs" with
      | none => simp [FlowerClient.fit, h, hr, he]
      | some e => simp [FlowerClient.fit, h, hr, he]
  · simp [FlowerClient.fit, h]

theorem evaluate_num_examples {Opt Feed : Type} (E : Engines Opt Feed)
    (c : FlowerClient Opt Feed) (p : ParameterSet) (cfg : Config) :
    (c.evaluate E p cfg).2.num_examples = c.num_examples := by
  obtain ⟨cid, mdl, td, vd, ne, opt⟩ := c
  rcases set_parameters_cases mdl p with h | h
  · cases hr : cfg.get? "server_round" with
    | none => simp [FlowerClient.evaluate, h, hr]
    | some r => simp [FlowerClient.evaluate, h, hr]
  · simp [FlowerClient.evaluate, h]

theorem runOps_num_examples {Opt Feed : Type} (E : Engines Opt Feed)
    (c : FlowerClient Opt Feed) (ops : List ClientOp) :
    (runOps E c ops).num_examples = c.num_examples := by
  induction ops generalizing c with
  | nil => rfl
  | cons op rest ih =>
    cases op with
    | fitOp p cfg =>
      have hstep : runOps E c (.fitOp p cfg :: rest)
          = runOps E (c.fit E p cfg).2 rest := rfl
      rw [hstep, ih, fit_num_examples]
    | evaluateOp p cfg =>
      have hstep : runOps E c (.evaluateOp p cfg :: rest)
          = runOps E (c.evaluate E p cfg).2 rest := rfl
      rw [hstep, ih, evaluate_num_examples]
    | getParametersOp cfg =>
      have hstep : runOps E c (.getParametersOp cfg :: rest)
          = runOps E c rest := rfl
      rw [hstep, ih]

theorem fit_reported_count {Opt Feed : Type} (E : Engines Opt Feed)
    (c : FlowerClient Opt Feed) (p : ParameterSet) (cfg : Config)
    (ps : ParameterSet) (n : Nat) (ms : Metrics)
    (h : (c.fit E p cfg).1 = .ok (ps, n, ms)) :
    n = c.num_examples.trainset := by
  obtain ⟨cid, mdl, td, vd, ne, opt⟩ := c
  rcases set_parameters_cases mdl p with h1 | h1
  · cases hr : cfg.get? "server_round" with
    | none => simp [FlowerClient.fit, h1, hr] at h
    | some r =>
      cases he : cfg.get? "local_epochs" with
      | none => simp [FlowerClient.fit, h1, hr, he] at h
      | some e =>
        simp [FlowerClient.fit, h1, hr, he] at h
        exact h.2.1.symm
  · simp [FlowerClient.fit, h1] at h

theorem evaluate_reported_count {Opt Feed : Type} (E : Engines Opt Feed)
    (c : FlowerClient Opt Feed) (p : ParameterSet) (cfg : Config)
    (l : ℚ) (n : Nat) (ms : Metrics)
    (h : (c.evaluate E p cfg).1 = .ok (l, n, ms)) :
    n = c.num_examples.valset := by
  obtain ⟨cid, mdl, td, vd, ne, opt⟩ := c
  rcases set_parameters_cases mdl p with h1 | h1
  · cases hr : cfg.get? "server_round" with
    | none => simp [FlowerClient.evaluate, h1, hr] at h
    | some r =>
      simp [FlowerClient.evaluate, h1, hr] at h
      exact h.2.1.symm
  · simp [FlowerClient.evaluate, h1] at h

/-- C8: the sample counts reported by fit (`trainset`) and evaluate
(`valset`) equal the counts supplied by the Data Source at construction,
and no sequence of fit/evaluate/get_parameters rounds changes the stored
counts. -/
theorem num_examples_invariant {Opt Feed : Type} (E : Engines Opt Feed)
    (cid : Nat) (model : StateDict) (td vd : Feed) (ne : NumExamples)
    (co : StateDict → Opt) (ops : List ClientOp) (p p2 : ParameterSet)
    (cfg cfg2 : Config) (ps : ParameterSet) (n : Nat) (ms : Metrics)
    (l : ℚ) (n2 : Nat) (ms2 : Metrics)
    (hfit : ((runOps E (FlowerClient.init cid model td vd ne co) ops).fit E p cfg).1
      = .ok (ps, n, ms))
    (heval : ((runOps E (FlowerClient.init cid model td vd ne co) ops).evaluate E p2 cfg2).1
      = .ok (l, n2, ms2)) :
    (runOps E (FlowerClient.init cid model td vd ne co) ops).num_examples = ne ∧
    n = ne.trainset ∧ n2 = ne.valset := by
  have hpres := runOps_num_examples E (FlowerClient.init cid model td vd ne co) ops
  have hinit : (FlowerClient.init cid model td vd ne co : FlowerClient Opt Feed).num_examples = ne := rfl
  refine ⟨hpres.trans hinit, ?_, ?_⟩
  · have := fit_reported_count E _ p cfg ps n ms hfit
    rw [this, hpres, hinit]
  · have := evaluate_reported_count E _ p2 cfg2 l n2 ms2 heval
    rw [this, hpres, hinit]

/-- C8 (witness): at a concrete client and engine, a successful fit
reports the construction-time trainset count 12, a successful evaluate
reports the valset count 5, and the stored counts are unchanged. -/
theorem num_examples_invariant_witness :
    (runOps exEngines (FlowerClient.init 7 exModel () () ⟨12, 5⟩ (fun _ => 0)) []).num_examples
      = (⟨12, 5⟩ : NumExamples) ∧
    (12 : Nat) = (⟨12, 5⟩ : NumExamples).trainset ∧
    (5 : Nat) = (⟨12, 5⟩ : NumExamples).valset :=
  num_examples_invariant exEngines 7 exModel () () ⟨12, 5⟩ (fun _ => 0) []
    exParams exParams exConfigFull exConfigFull
    [⟨[2], [11, 21]⟩, ⟨[1], [31]⟩] 12
    [("accuracy", .num (3/4)), ("loss", .num (1/2)), ("cid", .id 7)]
    (1/3) 5
    [("accuracy", .num (2/3)), ("loss", .num (1/3)), ("cid", .id 7)]
    rfl rfl

end Pybiscus
